import Mathlib

/-!
Verification development for the rufux repository (a GTK tool that writes
bootable images to removable USB block devices).

The definitions below are shallow embeddings of the C sources:
  * `src/src/device/device.c`    — safety classifier (forbidden mounts)
  * `src/src/disk/partition.c`   — partition engine (layouts, partition paths)
  * `src/src/format/format.c`    — format dispatcher (mkfs invocation, progress)
  * `src/src/iso/iso_writer.c`   — raw image writer (dd + /sys stat polling)
  * `src/src/ui/window.c`        — orchestration (start-button handler, worker)

Machine integers are embedded as `Nat` with explicit `% 2 ^ 64` at the points
where the C code performs `uint64_t` arithmetic that can wrap (the sector-delta
computation of the writer).  C strings are Lean `String` / `List Char`.
-/

namespace Rufux

/-!
Verification development for the rufux repository (a GTK tool that writes
bootable images to removable USB block devices).

The definitions below are shallow embeddings of the C sources:
  * `src/src/device/device.c`    — safety classifier (forbidden mounts)
  * `src/src/disk/partition.c`   — partition engine (layouts, partition paths)
  * `src/src/format/format.c`    — format dispatcher (mkfs invocation, progress)
  * `src/src/iso/iso_writer.c`   — raw image writer (dd + /sys stat polling)
  * `src/src/ui/window.c`        — orchestration (start-button handler, worker)

Machine integers are embedded as `Nat` with explicit `% 2 ^ 64` at the points
where the C code performs `uint64_t` arithmetic that can wrap (the sector-delta
computation of the writer).  C strings are Lean `String` / `List Char`.
-/

/-! ## Safety classifier — `src/src/device/device.c` -/

/-- The `forbidden_mounts` table of `device.c` (lines 21–27): mountpoints that
mark a device as a system drive, never to be written. -/
def forbidden_mounts : List String := ["/", "/boot", "/boot/efi", "/home"]

/-- `has_forbidden_mount` (device.c lines 109–124).  The C loops over the
mounts and, for each mount, over the forbidden table, returning true on an
exact match; the `/home/` prefix test sits inside the inner loop, so it fires
whenever the (non-empty) table is scanned at all. -/
def has_forbidden_mount (mounts : List String) : Bool :=
  mounts.any fun m =>
    forbidden_mounts.any fun f => m == f || "/home/".data.isPrefixOf m.data

/-- The fields of `device_info_t` (device.h) that the verified code paths
consult. -/
structure device_info where
  name : String
  path : String
  size : Nat
  mountpoints : List String
deriving Repr, DecidableEq

/-- `device_is_system_drive` (device.c lines 351–354); a non-null device is a
system drive exactly when it has a forbidden mount. -/
def device_is_system_drive (dev : device_info) : Bool :=
  has_forbidden_mount dev.mountpoints

/-- `device_is_mounted` (device.c lines 326–329). -/
def device_is_mounted (dev : device_info) : Bool :=
  !dev.mountpoints.isEmpty

/-- Eligibility for destructive operations.  `device_enumerate` (device.c
lines 242–250) skips any device for which `has_forbidden_mount` holds, i.e. a
device is eligible iff it is not a system drive. -/
def isEligible (dev : device_info) : Bool :=
  !device_is_system_drive dev

/-! ## Partition paths — `partition_get_path`, `src/src/disk/partition.c` -/

/-- `strrchr(device, '/') + 1` of partition.c line 543–544: the characters
after the last `'/'`, or the whole string when there is none. -/
def basename_chars (s : List Char) : List Char :=
  ((s.reverse.takeWhile fun c => c ≠ '/')).reverse

/-- The `needs_p` flag of `partition_get_path` (partition.c lines 546–554):
true when the base name starts with `nvme`/`mmcblk`/`loop` or is non-empty
with a final digit. -/
def needs_p (device : String) : Bool :=
  let base := basename_chars device.data
  if "nvme".data.isPrefixOf base || "mmcblk".data.isPrefixOf base ||
      "loop".data.isPrefixOf base then
    true
  else
    match base.getLast? with
    | some c => c.isDigit
    | none => false

/-- `partition_get_path` (partition.c lines 536–565): derive the partition
node path, with a `p` infix exactly when `needs_p` is set. -/
def partition_get_path (device : String) (part_number : Nat) : String :=
  if needs_p device then
    device ++ "p" ++ toString part_number
  else
    device ++ toString part_number

/-- The claim's wording of the `p`-infix condition, as a proposition: the
device's base name ends in a digit, or starts with an NVMe/MMC/loop naming
prefix. -/
def claim_needs_p (device : String) : Prop :=
  (∃ c, (basename_chars device.data).getLast? = some c ∧ c.isDigit = true) ∨
    "nvme".data <+: basename_chars device.data ∨
    "mmcblk".data <+: basename_chars device.data ∨
    "loop".data <+: basename_chars device.data

/-! ## Raw image writer — `src/src/iso/iso_writer.c`

The writer forks a `dd` process and, on every ≈250 ms poll tick, samples the
device's cumulative sectors-written counter from `/sys/block/<name>/stat`,
subtracts the pre-copy baseline (64-bit unsigned arithmetic), multiplies by
512, clamps at the source size and reports the result. -/

/-- The parsing step of `get_device_sectors_written` (iso_writer.c lines
97–106): `fscanf` with 8 `%lu` conversions; the 7th field (cumulative sectors
written) is kept when at least 7 fields were parsed, otherwise the local
`sectors = 0` initialisation survives. -/
def stat_sectors_written (fields : List Nat) : Nat :=
  if 7 ≤ fields.length then fields.getD 6 0 else 0

/-- One poll tick of `writer_thread` (iso_writer.c lines 206–213) and of
`iso_write_sync` (lines 417–420): `uint64_t` delta since the baseline, times
512 bytes per sector (both wrapping mod 2^64 as in C), clamped at the source
size. -/
def tick_bytes (baseline current iso_size : Nat) : Nat :=
  let delta := (current + 2 ^ 64 - baseline) % 2 ^ 64
  let bytes := delta * 512 % 2 ^ 64
  if bytes > iso_size then iso_size else bytes

/-- The sequence of bytes-written values the progress callback receives for a
sequence of sector-counter samples. -/
def progress_reports (baseline iso_size : Nat) (samples : List Nat) : List Nat :=
  samples.map fun s => tick_bytes baseline s iso_size

/-! ### The writer thread as a transition system

`writer_thread` (iso_writer.c lines 111–281) loops once per poll tick.  Each
iteration observes, in order: the cancellation flag, the drained pipe, the
`waitpid(WNOHANG)` result, and the sector counter.  One `tick_obs` records
what a given iteration observed. -/

/-- What one iteration of the polling loop observes. -/
inductive tick_obs
  | cancel
  | exited (status : Nat)
  | running (sectors : Nat)
deriving Repr, DecidableEq

/-- `write_state_t` of iso_writer.h. -/
inductive write_state
  | idle
  | writing
  | syncing
  | complete
  | error
  | cancelled
deriving Repr, DecidableEq

/-- Externally visible effects of the writer thread. -/
inductive w_action
  | kill_dd
  | sync_device
  | progress (bytes : Nat)
  | notify (st : write_state)
deriving Repr, DecidableEq

/-- The polling loop of `writer_thread` (iso_writer.c lines 172–281): on a
cancel observation it signals `dd`, waits for it, sets CANCELLED and fires the
completion callback with no flush; on a zero exit it flushes (`sync()`), sets
COMPLETE and reports full progress; on a non-zero exit it sets ERROR; on a
running tick it reports the clamped byte count and keeps polling.  An
exhausted observation list leaves the thread still in WRITING. -/
def writer_loop (baseline iso_size : Nat) :
    List tick_obs → write_state × List w_action
  | [] => (write_state.writing, [])
  | tick_obs.cancel :: _ =>
      (write_state.cancelled,
        [w_action.kill_dd, w_action.notify write_state.cancelled])
  | tick_obs.exited s :: _ =>
      if s = 0 then
        (write_state.complete,
          [w_action.sync_device, w_action.progress iso_size,
            w_action.notify write_state.complete])
      else
        (write_state.error, [w_action.notify write_state.error])
  | tick_obs.running cur :: rest =>
      let r := writer_loop baseline iso_size rest
      (r.1, w_action.progress (tick_bytes baseline cur iso_size) :: r.2)

/-! ## Format dispatcher — `src/src/format/format.c` -/

/-- The synthetic per-tick fraction of `format_partition`'s wait loop
(format.c lines 203–211): `elapsed` increments every 100 ms and the fraction
is `elapsed * 0.02`, frozen at `0.99` from tick 50 on. -/
def format_tick_fraction (elapsed : Nat) : ℚ :=
  if elapsed < 50 then elapsed * (2 / 100) else 99 / 100

/-- The full progress trace of one `format_partition` run that reaches the
wait loop (format.c lines 164–224): the initial "Starting format..." event,
one "Formatting..." event per completed poll tick, and the unconditional
final event fired after the tool exits — before the exit status is even
inspected. -/
def format_progress_trace (ticks : Nat) : List (ℚ × String) :=
  ((0, "Starting format...") ::
      (List.range ticks).map fun i => (format_tick_fraction (i + 1), "Formatting...")) ++
    [(1, "Complete")]

/-- One `format_partition` run after the guards pass: the boolean result
(format.c lines 216–223, true exactly on exit status 0) paired with the
progress trace. -/
def format_partition_run (ticks exit_status : Nat) : Bool × List (ℚ × String) :=
  (exit_status == 0, format_progress_trace ticks)

/-! ## Partition engine — `src/src/disk/partition.c` -/

/-- `fs_type_t` of platform.h (same declaration order). -/
inductive fs_type
  | unknown
  | fat16
  | fat32
  | ntfs
  | udf
  | exfat
  | refs
  | ext2
  | ext3
  | ext4
deriving Repr, DecidableEq

/-- `partition_style_t` of platform.h. -/
inductive partition_style
  | mbr
  | gpt
deriving Repr, DecidableEq

/-- `target_type_t` of platform.h. -/
inductive target_type
  | bios
  | uefi
  | bios_uefi
deriving Repr, DecidableEq

/-- `get_mbr_type` (partition.c lines 32–49). -/
def get_mbr_type (fs : fs_type) : Nat :=
  match fs with
  | fs_type.fat16 => 0x06
  | fs_type.fat32 => 0x0C
  | fs_type.ntfs => 0x07
  | fs_type.exfat => 0x07
  | fs_type.ext2 => 0x83
  | fs_type.ext3 => 0x83
  | fs_type.ext4 => 0x83
  | _ => 0x0C

/-- The GPT type GUID constants of partition.c lines 28–30. -/
def GPT_TYPE_EFI : String := "C12A7328-F81F-11D2-BA4B-00A0C93EC93B"

def GPT_TYPE_LINUX : String := "0FC63DAF-8483-4772-8E79-3D69D8477DE4"

def GPT_TYPE_MSDATA : String := "EBD0A0A2-B9E5-4433-87C0-68B6B72699C7"

/-- `get_gpt_type` (partition.c lines 51–61): the Linux GUID for ext*, the
Microsoft basic data GUID for everything else. -/
def get_gpt_type (fs : fs_type) : String :=
  match fs with
  | fs_type.ext2 => GPT_TYPE_LINUX
  | fs_type.ext3 => GPT_TYPE_LINUX
  | fs_type.ext4 => GPT_TYPE_LINUX
  | _ => GPT_TYPE_MSDATA

/-- The partition type code `partition_add` / `partition_add_efi` writes:
an MBR code under a DOS label, a GUID string under GPT. -/
inductive part_type
  | mbr_code (code : Nat)
  | gpt_guid (guid : String)
deriving Repr, DecidableEq

/-- `partition_entry_t` of partition.h. -/
structure partition_entry where
  start : Nat
  size : Nat
  fs : fs_type
  bootable : Bool
  label : String
deriving Repr, DecidableEq

/-- The on-disk record one `partition_add` call (partition.c lines 196–277)
produces: start/size as given (0 = follow default / consume remainder), the
type from the filesystem→type mapping for the active label, the bootable flag
honoured only under MBR (line 258).  The entry's `label` field is never
consulted by `partition_add`. -/
structure written_partition where
  start : Nat
  size : Nat
  ptype : part_type
  bootable : Bool
deriving Repr, DecidableEq

def partition_add_entry (style : partition_style) (part : partition_entry) :
    written_partition :=
  { start := part.start
    size := part.size
    ptype := match style with
      | partition_style.mbr => part_type.mbr_code (get_mbr_type part.fs)
      | partition_style.gpt => part_type.gpt_guid (get_gpt_type part.fs)
    bootable := part.bootable && style == partition_style.mbr }

/-- `partition_add_efi` (partition.c lines 279–351): identical to
`partition_add` except that the type is hard-wired to `MBR_TYPE_EFI` (0xEF) /
`GPT_TYPE_EFI`. -/
def partition_add_efi_entry (style : partition_style) (part : partition_entry) :
    written_partition :=
  { start := part.start
    size := part.size
    ptype := match style with
      | partition_style.mbr => part_type.mbr_code 0xEF
      | partition_style.gpt => part_type.gpt_guid GPT_TYPE_EFI
    bootable := part.bootable && style == partition_style.mbr }

/-- `partition_create_single` (partition.c lines 353–376), privileged path:
one bootable partition consuming the whole device, typed by
`partition_add`'s mapping. -/
def partition_create_single_layout (style : partition_style) (fs : fs_type)
    (label : String) : List written_partition :=
  [partition_add_entry style
    { start := 0, size := 0, fs := fs, bootable := true, label := label }]

/-- `partition_create_single_efi` (partition.c lines 378–400), privileged
path: one bootable FAT32 partition typed via `partition_add_efi`. -/
def partition_create_single_efi_layout (style : partition_style)
    (label : String) : List written_partition :=
  [partition_add_efi_entry style
    { start := 0, size := 0, fs := fs_type.fat32, bootable := true, label := label }]

/-- `partition_create_bootable` (partition.c lines 402–449), privileged path:
for a UEFI-capable target on GPT, a 256 MiB FAT32 partition labelled "EFI"
added by plain `partition_add`, then a data partition consuming the
remainder; otherwise the single-partition layout. -/
def partition_create_bootable_layout (style : partition_style)
    (target : target_type) (fs : fs_type) (label : String) :
    List written_partition :=
  if (target = target_type.uefi ∨ target = target_type.bios_uefi) ∧
      style = partition_style.gpt then
    [partition_add_entry partition_style.gpt
        { start := 0, size := 256 * 1024 * 1024, fs := fs_type.fat32,
          bootable := false, label := "EFI" },
      partition_add_entry partition_style.gpt
        { start := 0, size := 0, fs := fs, bootable := false, label := label }]
  else
    partition_create_single_layout style fs label

/-- Upper-case hexadecimal digit, for the `%02X` rendering of MBR type codes
in the sfdisk scripts. -/
def hex_digit (n : Nat) : Char :=
  "0123456789ABCDEF".data.getD n 'X'

/-- `%02X` rendering of an MBR type code. -/
def hex2 (n : Nat) : String :=
  ⟨[hex_digit (n / 16 % 16), hex_digit (n % 16)]⟩

/-- The sfdisk script `partition_create_single_privileged` pipes to sfdisk
(partition.c lines 63–94): a label line and one whole-device partition line
typed from the filesystem mapping, with the MBR bootable marker `, *`. -/
def sfdisk_single_script (style : partition_style) (fs : fs_type) :
    List String :=
  ["label: " ++ (if style = partition_style.gpt then "gpt" else "dos"),
    ", , " ++
      (if style = partition_style.gpt then get_gpt_type fs
       else hex2 (get_mbr_type fs)) ++
      (if style = partition_style.mbr then ", *" else "")]

/-- The sfdisk script `partition_create_bootable_privileged` pipes to sfdisk
when the caller is unprivileged (partition.c lines 121–148): under GPT with a
UEFI-capable target, a 256M first partition whose type shorthand `U` sfdisk
expands to the EFI System partition GUID, then the data partition; otherwise
the single-partition script. -/
def sfdisk_bootable_script (style : partition_style) (target : target_type)
    (fs : fs_type) : List String :=
  if style ≠ partition_style.gpt ∨ target = target_type.bios then
    sfdisk_single_script style fs
  else
    ["label: gpt", ", 256M, U", ", , " ++ get_gpt_type fs]

/-! ## Orchestration — `src/src/ui/window.c`

`on_start_clicked` (lines 575–721) validates the request against the cached
device snapshot, unmounts the device, builds a `write_op_t` and shows the
confirmation dialog; `on_confirm_response` (lines 536–573) launches
`write_thread_func` (lines 417–533) on confirmation. -/

/-- The fields of `iso_info_t` (iso_analyzer.h) that `on_start_clicked`
consults. -/
structure iso_info where
  size : Nat
  is_bootable : Bool
  is_windows : Bool
  has_efi : Bool
deriving Repr, DecidableEq

/-- The window state `on_start_clicked` reads: the cached device snapshot
(`self->devices`, from the last enumeration), the dropdowns, the selected ISO
and its cached analysis, plus `iso_extract_is_supported()` (availability of
xorriso/bsdtar/7z on the execution path). -/
structure ui_state where
  devices : List device_info
  device_sel : Option Nat
  boot_sel : Nat
  iso_path : Option String
  iso_info : Option iso_info
  write_mode_sel : Nat
  partition_sel : Nat
  target_sel : Nat
  fs_sel : Nat
  cluster_sel : Nat
  label_text : String
  extract_supported : Bool
deriving Repr, DecidableEq

/-- The dropdown→`partition_style_t` mapping (window.c lines 645–646 and
667–668). -/
def style_of_dropdown (idx : Nat) : partition_style :=
  if idx == 1 then partition_style.gpt else partition_style.mbr

/-- The dropdown→`target_type_t` mapping (window.c lines 648–653 and
670–675). -/
def target_of_dropdown (idx : Nat) : target_type :=
  match idx with
  | 1 => target_type.uefi
  | 2 => target_type.bios_uefi
  | _ => target_type.bios

/-- The dropdown→`fs_type_t` mapping (window.c lines 677–684). -/
def fs_of_dropdown (idx : Nat) : fs_type :=
  match idx with
  | 0 => fs_type.fat32
  | 1 => fs_type.ntfs
  | 2 => fs_type.exfat
  | 3 => fs_type.ext4
  | _ => fs_type.fat32

/-- The `cluster_options` table (window.c line 58) and the selection logic of
lines 657–662: index 0 is "Default" (0 = tool default). -/
def cluster_of_dropdown (idx : Nat) : Nat :=
  [0, 4096, 8192, 16384, 32768].getD idx 0

/-- `write_op_t` (window.c lines 320–333), as populated by
`on_start_clicked`. -/
structure write_op where
  device_path : String
  iso_path : Option String
  part_style : partition_style
  target : target_type
  fs : fs_type
  cluster_size : Nat
  label : String
  write_iso : Bool
  iso_extract : Bool
deriving Repr, DecidableEq

/-- The `write_op_t` built at window.c lines 636–696.  `g_new0` zeroes the
record first, so the fields a branch does not set keep the C zero values
(MBR, BIOS, `FS_UNKNOWN`, cluster 0, empty label). -/
def build_write_op (st : ui_state) (dev : device_info)
    (write_iso iso_extract : Bool) : write_op :=
  if write_iso then
    if iso_extract then
      { device_path := dev.path, iso_path := st.iso_path,
        part_style := style_of_dropdown st.partition_sel,
        target := target_of_dropdown st.target_sel,
        fs := fs_type.fat32,
        cluster_size := cluster_of_dropdown st.cluster_sel,
        label := st.label_text,
        write_iso := true, iso_extract := true }
    else
      { device_path := dev.path, iso_path := st.iso_path,
        part_style := partition_style.mbr, target := target_type.bios,
        fs := fs_type.unknown, cluster_size := 0, label := "",
        write_iso := true, iso_extract := false }
  else
    { device_path := dev.path, iso_path := none,
      part_style := style_of_dropdown st.partition_sel,
      target := target_of_dropdown st.target_sel,
      fs := fs_of_dropdown st.fs_sel,
      cluster_size := cluster_of_dropdown st.cluster_sel,
      label := st.label_text,
      write_iso := false, iso_extract := false }

/-- Outcome of `on_start_clicked`: an early `return` after `set_status` with
an error message, or reaching the confirmation dialog (after the unmount of
window.c lines 630–633, which happens before the dialog) with the built
operation. -/
inductive click_result
  | rejected (msg : String)
  | confirm (unmount_first : Bool) (op : write_op)
deriving Repr, DecidableEq

/-- `on_start_clicked` (window.c lines 575–721).  The C nests the four
extract-precondition checks inside one `if (write_iso && iso_extract)` block;
guarding each with the same conjunction is equivalent.  The non-returning
bootability warning of lines 597–599 only sets a status label and is not an
outcome, so it is not modelled. -/
def on_start_clicked (st : ui_state) : click_result :=
  match st.device_sel with
  | none => click_result.rejected "No device selected"
  | some idx =>
    match st.devices.get? idx with
    | none => click_result.rejected "No device selected"
    | some dev =>
      let write_iso := st.boot_sel == 0 && st.iso_path.isSome
      let iso_extract := st.write_mode_sel == 1
      if write_iso && st.iso_info.isNone then
        click_result.rejected "Please select an ISO image"
      else if write_iso && st.iso_info.any fun i => decide (dev.size < i.size) then
        click_result.rejected "ISO is larger than the target device"
      else if write_iso && iso_extract && !st.extract_supported then
        click_result.rejected "ISO file copy needs xorriso, bsdtar, or 7z"
      else if write_iso && iso_extract && st.iso_info.any iso_info.is_windows then
        click_result.rejected "Windows ISO extraction not supported yet"
      else if write_iso && iso_extract && !(st.iso_info.any iso_info.has_efi) then
        click_result.rejected "ISO file copy requires UEFI boot files"
      else if write_iso && iso_extract && st.target_sel == 0 then
        click_result.rejected "ISO file copy requires UEFI target"
      else if write_iso && iso_extract && st.fs_sel != 0 then
        click_result.rejected "ISO file copy requires FAT32"
      else
        click_result.confirm (device_is_mounted dev)
          (build_write_op st dev write_iso (write_iso && iso_extract))

/-- The destructive or externally visible calls the click flow can issue. -/
inductive job_action
  | unmount
  | partition_efi
  | partition_bootable
  | partition_single
  | format (path : String)
  | extract
  | dd_copy
deriving Repr, DecidableEq

/-- Success oracles for the external steps of `write_thread_func`. -/
structure thread_env where
  partition_ok : Bool
  format_esp_ok : Bool
  format_ok : Bool
deriving Repr, DecidableEq

/-- The call sequence of `write_thread_func` (window.c lines 417–533):
extract mode partitions (EFI-typed single), formats the partition FAT32 and
extracts; raw ISO mode calls `iso_write_sync` (the dd copy) directly;
format-only mode partitions (bootable layout with ESP when the target is not
BIOS and the style is GPT, single otherwise) and formats each partition. -/
def write_thread_actions (op : write_op) (env : thread_env) : List job_action :=
  if op.write_iso then
    if op.iso_extract then
      job_action.partition_efi ::
        (if env.partition_ok then
          job_action.format (partition_get_path op.device_path 1) ::
            (if env.format_ok then [job_action.extract] else [])
        else [])
    else
      [job_action.dd_copy]
  else
    if op.target != target_type.bios && op.part_style == partition_style.gpt then
      job_action.partition_bootable ::
        (if env.partition_ok then
          job_action.format (partition_get_path op.device_path 1) ::
            (if env.format_esp_ok then
              [job_action.format (partition_get_path op.device_path 2)]
            else [])
        else [])
    else
      job_action.partition_single ::
        (if env.partition_ok then
          [job_action.format (partition_get_path op.device_path 1)]
        else [])

/-- The whole click→confirm→worker flow.  `fresh_mounts` is the mount table
as it stands at click time: the source never reads it on this path
(`/proc/mounts` is consulted only inside `device_enumerate`), so the
definition cannot and does not depend on it — which is exactly what the
stale-eligibility theorem below exhibits. -/
def start_flow (st : ui_state) (fresh_mounts : List String) (confirm : Bool)
    (env : thread_env) : List job_action :=
  match on_start_clicked st with
  | click_result.rejected _ => []
  | click_result.confirm unm op =>
      (if unm then [job_action.unmount] else []) ++
        (if confirm then write_thread_actions op env else [])

/-- Whether the click flow launches a worker job at all. -/
def flow_launches_job (st : ui_state) (confirm : Bool) : Bool :=
  match on_start_clicked st with
  | click_result.rejected _ => false
  | click_result.confirm _ _ => confirm

/-- The job-level WriteState after the click flow: `iso_writer_new`
initialises `WRITE_STATE_IDLE` and only a launched worker moves it (the
worker's first action is to set WRITING, iso_writer.c lines 115–117). -/
def flow_write_state (st : ui_state) (confirm : Bool) : write_state :=
  if flow_launches_job st confirm then write_state.writing else write_state.idle

/-- The spec's §7 error taxonomy. -/
inductive error_class
  | configuration_error
  | safety_violation
  | device_io_error
  | process_error
  | cancellation_requested
  | other_status
deriving Repr, DecidableEq

/-- Modelled from the spec: the §7 error taxonomy is not implemented as a
type in the source (window.c reports plain status strings), so this
classifier maps the rejection messages of `on_start_clicked` to the spec's
classes following §7's words — "SafetyViolation (forbidden mount, size
mismatch between source and device)", "ConfigurationError (unsupported
filesystem/tool missing)". -/
def classify_status (msg : String) : error_class :=
  if msg = "ISO is larger than the target device" then
    error_class.safety_violation
  else if msg = "ISO file copy needs xorriso, bsdtar, or 7z" then
    error_class.configuration_error
  else if msg = "Windows ISO extraction not supported yet" then
    error_class.configuration_error
  else if msg = "ISO file copy requires UEFI boot files" then
    error_class.configuration_error
  else if msg = "ISO file copy requires UEFI target" then
    error_class.configuration_error
  else if msg = "ISO file copy requires FAT32" then
    error_class.configuration_error
  else
    error_class.other_status

/-- The oracle where every external step succeeds. -/
def all_ok_env : thread_env :=
  { partition_ok := true, format_esp_ok := true, format_ok := true }

def c5_dev : device_info :=
  { name := "sdb", path := "/dev/sdb", size := 1000, mountpoints := [] }

def c5_info : iso_info :=
  { size := 2000, is_bootable := true, is_windows := false, has_efi := true }

def c5_state : ui_state :=
  { devices := [c5_dev], device_sel := some 0, boot_sel := 0,
    iso_path := some "/tmp/big.iso", iso_info := some c5_info,
    write_mode_sel := 0, partition_sel := 0, target_sel := 2, fs_sel := 0,
    cluster_sel := 0, label_text := "", extract_supported := true }

def c8_dev : device_info :=
  { name := "sdc", path := "/dev/sdc", size := 8000000, mountpoints := [] }

def c8_info : iso_info :=
  { size := 4000000, is_bootable := true, is_windows := true, has_efi := true }

def c8_state : ui_state :=
  { devices := [c8_dev], device_sel := some 0, boot_sel := 0,
    iso_path := some "/tmp/win.iso", iso_info := some c8_info,
    write_mode_sel := 1, partition_sel := 1, target_sel := 1, fs_sel := 0,
    cluster_sel := 0, label_text := "", extract_supported := true }

def c2_dev : device_info :=
  { name := "sdb", path := "/dev/sdb", size := 8 * 1024 ^ 3, mountpoints := [] }

/-- A raw-image job request over a snapshot taken while the device had no
mounts; by click time the current mount table may already contain a forbidden
entry. -/
def c2_info : iso_info :=
  { size := 4 * 1024 ^ 3, is_bootable := true, is_windows := false,
    has_efi := true }

def c2_state : ui_state :=
  { devices := [c2_dev], device_sel := some 0, boot_sel := 0,
    iso_path := some "/tmp/linux.iso", iso_info := some c2_info,
    write_mode_sel := 0, partition_sel := 0, target_sel := 2, fs_sel := 0,
    cluster_sel := 0, label_text := "", extract_supported := true }

/-! ## Claim theorems and supporting lemmas -/

theorem needs_p_iff (device : String) :
    needs_p device = true ↔ claim_needs_p device := by
  unfold needs_p claim_needs_p
  constructor
  · intro h
    by_cases hp : ("nvme".data.isPrefixOf (basename_chars device.data) ||
        "mmcblk".data.isPrefixOf (basename_chars device.data) ||
        "loop".data.isPrefixOf (basename_chars device.data)) = true
    · rcases Bool.or_eq_true_iff.mp hp with h2 | h2
      · rcases Bool.or_eq_true_iff.mp h2 with h3 | h3
        · exact Or.inr (Or.inl ( List.isPrefixOf_iff_prefix.mp h3))
        · exact Or.inr (Or.inr (Or.inl ( List.isPrefixOf_iff_prefix.mp h3)))
      · exact Or.inr (Or.inr (Or.inr ( List.isPrefixOf_iff_prefix.mp h2)))
    · simp only [hp, if_neg, Bool.not_eq_true] at h
      cases hl : (basename_chars device.data).getLast? with
      | none => rw [hl] at h; exact absurd h (by simp)
      | some c => rw [hl] at h; exact Or.inl ⟨c, rfl, h⟩
  · intro h
    rcases h with ⟨c, hc, hd⟩ | h | h | h
    · by_cases hp : ("nvme".data.isPrefixOf (basename_chars device.data) ||
          "mmcblk".data.isPrefixOf (basename_chars device.data) ||
          "loop".data.isPrefixOf (basename_chars device.data)) = true
      · simp [hp]
      · rw [if_neg (by simp_all)]
        rw [hc]; exact hd
    · have := List.isPrefixOf_iff_prefix.mpr h
      simp [this]
    · have := List.isPrefixOf_iff_prefix.mpr h
      simp [this]
    · have := List.isPrefixOf_iff_prefix.mpr h
      simp [this]

/-- C9: for every device path and partition index, the derived partition path
appends a `p` infix before the index exactly when the device's base name ends
in a digit or starts with an NVMe/MMC/loop naming prefix, and appends the bare
index otherwise; in particular `partition_get_path "/dev/sda" 1 = "/dev/sda1"`
and `partition_get_path "/dev/nvme0n1" 1 = "/dev/nvme0n1p1"`. -/
theorem partition_path_p_infix_exactly_when_convention_requires :
    (∀ (device : String) (n : Nat),
        (partition_get_path device n = device ++ "p" ++ toString n ↔
          claim_needs_p device) ∧
        (partition_get_path device n = device ++ toString n ↔
          ¬ claim_needs_p device)) ∧
    partition_get_path "/dev/sda" 1 = "/dev/sda1" ∧
    partition_get_path "/dev/nvme0n1" 1 = "/dev/nvme0n1p1" := by
  refine ⟨fun device n => ?_, by decide, by decide⟩
  have hne : device ++ "p" ++ toString n ≠ device ++ toString n := by
    intro h
    have hlen := congrArg String.length h
    simp only [String.length_append] at hlen
    have hp1 : ("p" : String).length = 1 := rfl
    rw [hp1] at hlen
    omega
  by_cases hc : needs_p device = true
  · have hcp : claim_needs_p device := (needs_p_iff device).mp hc
    refine ⟨?_, ?_⟩
    · rw [partition_get_path, if_pos hc]
      exact iff_of_true rfl hcp
    · rw [partition_get_path, if_pos hc]
      exact iff_of_false hne (fun hnot => hnot hcp)
  · have hcp : ¬ claim_needs_p device := fun hh => hc ((needs_p_iff device).mpr hh)
    refine ⟨?_, ?_⟩
    · rw [partition_get_path, if_neg hc]
      exact iff_of_false (fun h => hne h.symm) hcp
    · rw [partition_get_path, if_neg hc]
      exact iff_of_true rfl hcp

/-- C1: a device whose mountpoint set contains a path equal to one of the
forbidden mounts (`/`, `/boot`, `/boot/efi`, `/home`) or beginning with
`/home/` is classified as a system drive and therefore ineligible for
destructive operations. -/
theorem forbidden_mount_implies_ineligible (dev : device_info) (m : String)
    (hm : m ∈ dev.mountpoints)
    (hf : m ∈ forbidden_mounts ∨ "/home/".data.isPrefixOf m.data = true) :
    device_is_system_drive dev = true ∧ isEligible dev = false := by
  have hmain : has_forbidden_mount dev.mountpoints = true := by
    unfold has_forbidden_mount
    rw [List.any_eq_true]
    refine ⟨m, hm, ?_⟩
    rw [List.any_eq_true]
    rcases hf with hf | hf
    · exact ⟨m, hf, by simp⟩
    · refine ⟨"/", by simp [forbidden_mounts], ?_⟩
      simp [hf]
  refine ⟨hmain, ?_⟩
  unfold isEligible device_is_system_drive
  rw [hmain]
  rfl

theorem forbidden_mount_implies_ineligible_witness :
    device_is_system_drive
        { name := "sdb", path := "/dev/sdb", size := 8192,
          mountpoints := ["/media/usb", "/home/user/stick"] } = true ∧
    isEligible
        { name := "sdb", path := "/dev/sdb", size := 8192,
          mountpoints := ["/media/usb", "/home/user/stick"] } = false :=
  forbidden_mount_implies_ineligible _ "/home/user/stick" (by simp)
    (Or.inr (by decide))

theorem tick_bytes_le (b s iso : Nat) : tick_bytes b s iso ≤ iso := by
  simp only [tick_bytes]
  split
  · exact le_refl iso
  · omega

theorem tick_bytes_eq_of_no_overflow (b s iso : Nat) (hbs : b ≤ s)
    (hlt : (s - b) * 512 < 2 ^ 64) :
    tick_bytes b s iso = min iso ((s - b) * 512) := by
  have hsb : s - b < 2 ^ 64 := by
    have h1 : s - b ≤ (s - b) * 512 := by nlinarith
    omega
  have hsub : s + 2 ^ 64 - b = (s - b) + 2 ^ 64 := by omega
  have hdelta : (s + 2 ^ 64 - b) % 2 ^ 64 = s - b := by
    rw [hsub, Nat.add_mod_right]
    exact Nat.mod_eq_of_lt hsb
  simp only [tick_bytes]
  rw [hdelta, Nat.mod_eq_of_lt hlt]
  rcases le_or_lt ((s - b) * 512) iso with h | h
  · rw [if_neg (by omega), Nat.min_eq_right h]
  · rw [if_pos h, Nat.min_eq_left (le_of_lt h)]

theorem tick_bytes_mono (b s1 s2 iso : Nat) (hb1 : b ≤ s1) (h12 : s1 ≤ s2)
    (h2 : (s2 - b) * 512 < 2 ^ 64) :
    tick_bytes b s1 iso ≤ tick_bytes b s2 iso := by
  have hm : (s1 - b) * 512 ≤ (s2 - b) * 512 :=
    Nat.mul_le_mul (Nat.sub_le_sub_right h12 b) (le_refl 512)
  have h1 : (s1 - b) * 512 < 2 ^ 64 := lt_of_le_of_lt hm h2
  rw [tick_bytes_eq_of_no_overflow b s1 iso hb1 h1,
      tick_bytes_eq_of_no_overflow b s2 iso (le_trans hb1 h12) h2]
  exact min_le_min (le_refl iso) hm

/-- C6 (amended): for every non-decreasing sequence of sector-counter samples
starting at the baseline whose byte deltas stay below 2^64 (so the `uint64_t`
multiplication by 512 does not wrap), the reported bytes-written values are
non-decreasing and each is at most the source size. -/
theorem progress_reports_monotone_le_size
    (baseline iso_size : Nat) (samples : List Nat)
    (hmono : List.Chain' (· ≤ ·) (baseline :: samples))
    (hno : ∀ s ∈ samples, (s - baseline) * 512 < 2 ^ 64) :
    List.Chain' (· ≤ ·) (progress_reports baseline iso_size samples) ∧
    ∀ r ∈ progress_reports baseline iso_size samples, r ≤ iso_size := by
  constructor
  · have hp : List.Pairwise (· ≤ ·) (baseline :: samples) :=
      List.chain'_iff_pairwise.mp hmono
    have hbase : ∀ s ∈ samples, baseline ≤ s := (List.pairwise_cons.mp hp).1
    have hs : List.Pairwise (· ≤ ·) samples := (List.pairwise_cons.mp hp).2
    rw [progress_reports, List.chain'_iff_pairwise, List.pairwise_map]
    exact hs.imp_of_mem fun {a b} ha hb hab =>
      tick_bytes_mono baseline a b iso_size (hbase a ha) hab (hno b hb)
  · intro r hr
    rw [progress_reports, List.mem_map] at hr
    obtain ⟨s, hs, rfl⟩ := hr
    exact tick_bytes_le baseline s iso_size

theorem progress_reports_monotone_le_size_witness :
    List.Chain' (· ≤ ·) (progress_reports 0 200000 [0, 100, 250, 250, 500]) ∧
    ∀ r ∈ progress_reports 0 200000 [0, 100, 250, 250, 500], r ≤ 200000 :=
  progress_reports_monotone_le_size 0 200000 [0, 100, 250, 250, 500]
    (by norm_num [List.chain'_cons, List.chain'_singleton]) (by decide)

/-- C6 counterexample: with samples whose sector delta reaches 2^55 the C
`uint64_t` multiplication `delta * 512` wraps to 0, so the reported sequence
decreases: the claim's universal statement fails on the code. -/
theorem progress_reports_not_monotone_on_wrap :
    progress_reports 0 512 [2 ^ 55 - 1, 2 ^ 55] = [512, 0] ∧
    ¬ List.Chain' (· ≤ ·) (progress_reports 0 512 [2 ^ 55 - 1, 2 ^ 55]) := by
  have h : progress_reports 0 512 [2 ^ 55 - 1, 2 ^ 55] = [512, 0] := by decide
  refine ⟨h, ?_⟩
  rw [h]
  intro hc
  exact absurd (List.chain'_cons.mp hc).1 (by omega)

/-- C7: a short read of the stat file (fewer than 7 parsed fields) yields a
sector count of 0, and with a positive baseline the `uint64_t` delta
underflows, so after the clamp the tick reports the full source size —
strictly above the previous tick's value, not a zero delta. -/
theorem short_stat_read_reports_full_progress :
    stat_sectors_written [4, 0, 8, 1] = 0 ∧
    tick_bytes 100 150 1000000 = 25600 ∧
    tick_bytes 100 (stat_sectors_written [4, 0, 8, 1]) 1000000 = 1000000 ∧
    ¬ tick_bytes 100 (stat_sectors_written [4, 0, 8, 1]) 1000000 ≤
        tick_bytes 100 150 1000000 := by decide

/-- C4: if cancellation is observed while the job is in the Writing loop, the
run signals the copy process, ends in state Cancelled, never reaches
Complete, and issues no device flush. -/
theorem cancel_while_writing_no_flush_no_complete
    (baseline iso_size : Nat) (pre : List Nat) (rest : List tick_obs) :
    (writer_loop baseline iso_size
        (pre.map tick_obs.running ++ tick_obs.cancel :: rest)).1 =
      write_state.cancelled ∧
    w_action.kill_dd ∈ (writer_loop baseline iso_size
        (pre.map tick_obs.running ++ tick_obs.cancel :: rest)).2 ∧
    w_action.sync_device ∉ (writer_loop baseline iso_size
        (pre.map tick_obs.running ++ tick_obs.cancel :: rest)).2 ∧
    w_action.notify write_state.complete ∉ (writer_loop baseline iso_size
        (pre.map tick_obs.running ++ tick_obs.cancel :: rest)).2 := by
  induction pre with
  | nil => simp [writer_loop]
  | cons x xs ih =>
      simp only [List.map_cons, List.cons_append, writer_loop]
      refine ⟨ih.1, List.mem_cons_of_mem _ ih.2.1, ?_, ?_⟩
      · intro hmem
        simp only [List.mem_cons] at hmem
        rcases hmem with h | h
        · simp at h
        · exact ih.2.2.1 h
      · intro hmem
        simp only [List.mem_cons] at hmem
        rcases hmem with h | h
        · simp at h
        · exact ih.2.2.2 h

theorem format_tick_fraction_lt_one (e : Nat) : format_tick_fraction e < 1 := by
  unfold format_tick_fraction
  split
  · rename_i h
    have he : (e : ℚ) ≤ 49 := by exact_mod_cast Nat.le_of_lt_succ h
    nlinarith
  · norm_num

/-- C10: whatever the poll-tick count and the tool's exit status, the final
progress event is always `(1.0, "Complete")` — also when the status is
non-zero and the function returns false — while every earlier event reports a
fraction strictly below 1.0. -/
theorem format_final_event_always_complete (ticks exit_status : Nat) :
    ((format_partition_run ticks exit_status).2).getLast? = some (1, "Complete") ∧
    (∀ p ∈ ((format_partition_run ticks exit_status).2).dropLast, p.1 < 1) ∧
    ((format_partition_run ticks exit_status).1 = true ↔ exit_status = 0) := by
  refine ⟨?_, ?_, ?_⟩
  · show (format_progress_trace ticks).getLast? = some (1, "Complete")
    unfold format_progress_trace
    rw [List.getLast?_concat]
  · intro p hp
    have hp2 : p ∈ (0, "Starting format...") ::
        (List.range ticks).map fun i => (format_tick_fraction (i + 1), "Formatting...") := by
      have := hp
      unfold format_partition_run format_progress_trace at this
      rwa [List.dropLast_concat] at this
    rcases List.mem_cons.mp hp2 with h | h
    · rw [h]; norm_num
    · rw [List.mem_map] at h
      obtain ⟨i, _, rfl⟩ := h
      exact format_tick_fraction_lt_one (i + 1)
  · show (exit_status == 0) = true ↔ exit_status = 0
    simp

/-- C3: for a UEFI (or BIOS+UEFI) GPT bootable-layout request the privileged
path produces exactly 2 partitions with partition 1 sized 256 MiB and
partition 2 consuming the remainder — but partition 1 is typed with the
Microsoft basic data GUID (`get_gpt_type FS_FAT32`), not the EFI System GUID
the claim states; the unprivileged sfdisk fallback types the same partition
`U` (EFI System), confirming the intent. -/
theorem uefi_gpt_bootable_layout_esp_typed_msdata :
    (partition_create_bootable_layout partition_style.gpt target_type.uefi
        fs_type.fat32 "DATA").length = 2 ∧
    ((partition_create_bootable_layout partition_style.gpt target_type.uefi
        fs_type.fat32 "DATA").get? 0).map written_partition.size =
      some (256 * 1024 * 1024) ∧
    ((partition_create_bootable_layout partition_style.gpt target_type.uefi
        fs_type.fat32 "DATA").get? 1).map written_partition.size = some 0 ∧
    ((partition_create_bootable_layout partition_style.gpt target_type.uefi
        fs_type.fat32 "DATA").get? 0).map written_partition.ptype =
      some (part_type.gpt_guid GPT_TYPE_MSDATA) ∧
    GPT_TYPE_MSDATA ≠ GPT_TYPE_EFI ∧
    sfdisk_bootable_script partition_style.gpt target_type.uefi fs_type.fat32 =
      ["label: gpt", ", 256M, U", ", , " ++ GPT_TYPE_MSDATA] := by decide

/-- C5: a job whose declared ISO size exceeds the selected device's size is
rejected inside `on_start_clicked` before the unmount, before the
confirmation dialog and before any worker action; the status is the
size-mismatch message (a SafetyViolation under the spec's §7 taxonomy) and
the job-level WriteState stays Idle. -/
theorem oversize_source_rejected_idle
    (st : ui_state) (idx : Nat) (dev : device_info) (info : iso_info)
    (hsel : st.device_sel = some idx)
    (hdev : st.devices[idx]? = some dev)
    (hboot : st.boot_sel = 0)
    (hiso : st.iso_path.isSome = true)
    (hinfo : st.iso_info = some info)
    (hsize : dev.size < info.size) :
    on_start_clicked st =
      click_result.rejected "ISO is larger than the target device" ∧
    (∀ (fresh : List String) (confirm : Bool) (env : thread_env),
        start_flow st fresh confirm env = []) ∧
    (∀ confirm, flow_write_state st confirm = write_state.idle) ∧
    classify_status "ISO is larger than the target device" =
      error_class.safety_violation := by
  have hmain : on_start_clicked st =
      click_result.rejected "ISO is larger than the target device" := by
    unfold on_start_clicked
    rw [hsel]
    simp [hdev, hboot, hiso, hinfo, Option.any, hsize]
  refine ⟨hmain, ?_, ?_, by decide⟩
  · intro fresh confirm env
    unfold start_flow
    rw [hmain]
  · intro confirm
    unfold flow_write_state flow_launches_job
    rw [hmain]
    rfl

theorem oversize_source_rejected_idle_witness :
    on_start_clicked c5_state =
      click_result.rejected "ISO is larger than the target device" ∧
    start_flow c5_state ["/"] true all_ok_env = [] ∧
    flow_write_state c5_state true = write_state.idle ∧
    classify_status "ISO is larger than the target device" =
      error_class.safety_violation :=
  have h := oversize_source_rejected_idle c5_state 0 c5_dev c5_info rfl rfl rfl
    rfl rfl (by decide)
  ⟨h.1, h.2.1 ["/"] true all_ok_env, h.2.2.1 true, h.2.2.2⟩

/-- C8: in extract mode (the "ISO file copy" write mode), a Windows image,
a source without UEFI boot files, a BIOS-only target, or a non-FAT32
filesystem choice makes `on_start_clicked` reject the job with the matching
precondition message; no worker is launched, so in particular the job is
never switched to raw-image mode. -/
theorem extract_mode_preconditions_refused
    (st : ui_state) (idx : Nat) (dev : device_info) (info : iso_info)
    (hsel : st.device_sel = some idx)
    (hdev : st.devices[idx]? = some dev)
    (hboot : st.boot_sel = 0)
    (hiso : st.iso_path.isSome = true)
    (hinfo : st.iso_info = some info)
    (hsize : info.size ≤ dev.size)
    (hmode : st.write_mode_sel = 1)
    (htool : st.extract_supported = true)
    (hpre : info.is_windows = true ∨ info.has_efi = false ∨
        st.target_sel = 0 ∨ st.fs_sel ≠ 0) :
    (∃ msg, on_start_clicked st = click_result.rejected msg ∧
        msg ∈ ["Windows ISO extraction not supported yet",
               "ISO file copy requires UEFI boot files",
               "ISO file copy requires UEFI target",
               "ISO file copy requires FAT32"] ∧
        classify_status msg = error_class.configuration_error) ∧
    (∀ (fresh : List String) (confirm : Bool) (env : thread_env),
        start_flow st fresh confirm env = []) ∧
    (∀ confirm, flow_launches_job st confirm = false) := by
  have hnlt : ¬ dev.size < info.size := not_lt.mpr hsize
  have key : ∃ msg, on_start_clicked st = click_result.rejected msg ∧
      msg ∈ ["Windows ISO extraction not supported yet",
             "ISO file copy requires UEFI boot files",
             "ISO file copy requires UEFI target",
             "ISO file copy requires FAT32"] ∧
      classify_status msg = error_class.configuration_error := by
    cases hw : info.is_windows with
    | true =>
        refine ⟨"Windows ISO extraction not supported yet", ?_, by simp, by decide⟩
        unfold on_start_clicked
        rw [hsel]
        simp [hdev, hboot, hiso, hinfo, hmode, htool, hnlt, Option.any, hw]
    | false =>
      cases hefi : info.has_efi with
      | false =>
          refine ⟨"ISO file copy requires UEFI boot files", ?_, by simp, by decide⟩
          unfold on_start_clicked
          rw [hsel]
          simp [hdev, hboot, hiso, hinfo, hmode, htool, hnlt, Option.any, hw, hefi]
      | true =>
        by_cases htg : st.target_sel = 0
        · refine ⟨"ISO file copy requires UEFI target", ?_, by simp, by decide⟩
          unfold on_start_clicked
          rw [hsel]
          simp [hdev, hboot, hiso, hinfo, hmode, htool, hnlt, Option.any, hw,
            hefi, htg]
        · by_cases hfs : st.fs_sel = 0
          · rcases hpre with h | h | h | h
            · rw [hw] at h; exact absurd h (by simp)
            · rw [hefi] at h; exact absurd h (by simp)
            · exact absurd h htg
            · exact absurd hfs h
          · refine ⟨"ISO file copy requires FAT32", ?_, by simp, by decide⟩
            unfold on_start_clicked
            rw [hsel]
            simp [hdev, hboot, hiso, hinfo, hmode, htool, hnlt, Option.any, hw,
              hefi, htg, hfs]
  obtain ⟨msg, hmsg, hmem, hcls⟩ := key
  refine ⟨⟨msg, hmsg, hmem, hcls⟩, ?_, ?_⟩
  · intro fresh confirm env
    unfold start_flow
    rw [hmsg]
  · intro confirm
    unfold flow_launches_job
    rw [hmsg]

theorem extract_mode_preconditions_refused_witness :
    (∃ msg, on_start_clicked c8_state = click_result.rejected msg ∧
        msg ∈ ["Windows ISO extraction not supported yet",
               "ISO file copy requires UEFI boot files",
               "ISO file copy requires UEFI target",
               "ISO file copy requires FAT32"] ∧
        classify_status msg = error_class.configuration_error) ∧
    (∀ (fresh : List String) (confirm : Bool) (env : thread_env),
        start_flow c8_state fresh confirm env = []) ∧
    (∀ confirm, flow_launches_job c8_state confirm = false) :=
  extract_mode_preconditions_refused c8_state 0 c8_dev c8_info rfl rfl rfl rfl
    rfl (by decide) rfl rfl (Or.inl rfl)

/-- C2 (code-bug evaluation): the click→confirm→worker flow is independent of
the mount table as it stands at click time — the handler never re-runs the
eligibility predicate — so a job whose device snapshot predates a forbidden
mount (here `/home/user`) still reaches the destructive dd copy. -/
theorem eligibility_not_rechecked_before_destructive :
    (∀ (st : ui_state) (fresh1 fresh2 : List String) (confirm : Bool)
        (env : thread_env),
        start_flow st fresh1 confirm env = start_flow st fresh2 confirm env) ∧
    has_forbidden_mount ["/home/user"] = true ∧
    start_flow c2_state ["/home/user"] true all_ok_env =
      [job_action.dd_copy] := by
  refine ⟨fun st f1 f2 c e => rfl, by decide, by decide⟩

end Rufux
